import Mathlib

/- Formal model of the humanitarian-aid distribution engine.

   Shallow embedding of the deterministic core of the repository:
   the allocation validator/rebalancer and fallback allocation
   (agents/resource_allocation.py), the fallback route planner and the
   delivery-schedule generator (agents/logistics_coordinator.py), the
   stochastic delivery simulator viewed as a function of its random draws
   (core/orchestrator.py), and the fallback outcome analyzer and trend
   tracker (agents/monitor_adaptation.py).

   Conventions: real-valued Python arithmetic is modelled over the exact
   rationals; Python `int(x)` on a non-negative value is the floor;
   Python `round(x, 1)` is round-half-to-even of `10 * x` divided by 10;
   a Python dict key that may be absent is an `Option`; code that raises
   an exception is modelled with `Except`.  Time-of-day values are kept
   as the underlying fractional-hour clock; the repository formats them
   to strings only for display. -/

namespace HumAid

/-- Round-half-to-even to the nearest integer, as Python's built-in
`round` behaves on exact values. -/
def roundHalfEven (q : ℚ) : ℤ :=
  if q - ⌊q⌋ < 1/2 then ⌊q⌋
  else if 1/2 < q - ⌊q⌋ then ⌊q⌋ + 1
  else if ⌊q⌋ % 2 = 0 then ⌊q⌋
  else ⌊q⌋ + 1

/-- Python `round(q, 1)`: round to one decimal place, half to even. -/
def pyRound1 (q : ℚ) : ℚ := (roundHalfEven (q * 10) : ℚ) / 10

/-- The distributable resource kinds of the pool dict built by
`SettlementSimulator.get_available_resources`.  The operational keys
`vehicles_available`, `personnel_available` and `budget_usd` are kept as
separate `ResourcePool` fields: `_validate_allocations` excludes exactly
those three keys from rebalancing. -/
inductive ResourceKind
  | food_packages
  | water_liters
  | medical_kits
  | shelter_materials
  | blankets
  | hygiene_kits
deriving DecidableEq, Fintype

/-- The available-resources dict. -/
structure ResourcePool where
  food_packages : ℕ
  water_liters : ℕ
  medical_kits : ℕ
  shelter_materials : ℕ
  blankets : ℕ
  hygiene_kits : ℕ
  vehicles_available : ℕ
  personnel_available : ℕ
  budget_usd : ℕ
deriving DecidableEq

/-- Pool quantity of one distributable resource kind. -/
def ResourcePool.qty (res : ResourcePool) : ResourceKind → ℕ
  | .food_packages => res.food_packages
  | .water_liters => res.water_liters
  | .medical_kits => res.medical_kits
  | .shelter_materials => res.shelter_materials
  | .blankets => res.blankets
  | .hygiene_kits => res.hygiene_kits

/-- One per-zone allocation dict.  A resource key may be absent
(`none`), exactly as the Python dicts may lack a key. -/
structure ZoneAlloc where
  zone_id : String
  zone_name : String
  priority_score : ℚ
  food_packages : Option ℕ
  water_liters : Option ℕ
  medical_kits : Option ℕ
  shelter_materials : Option ℕ
  blankets : Option ℕ
  hygiene_kits : Option ℕ
  justification : String
deriving DecidableEq

/-- Quantity stored under one resource key of an allocation dict. -/
def ZoneAlloc.qty (a : ZoneAlloc) : ResourceKind → Option ℕ
  | .food_packages => a.food_packages
  | .water_liters => a.water_liters
  | .medical_kits => a.medical_kits
  | .shelter_materials => a.shelter_materials
  | .blankets => a.blankets
  | .hygiene_kits => a.hygiene_kits

/-- Per-kind proposed total across all zones, as the `totals` dict of
`_validate_allocations` (an absent key contributes nothing). -/
def allocTotal (allocs : List ZoneAlloc) (k : ResourceKind) : ℕ :=
  (allocs.map (fun a => (a.qty k).getD 0)).sum

/-- `int(q * (avail / total))`: scale one quantity by the rebalancing
factor and truncate to an integer. -/
def scaleQty (q avail total : ℕ) : ℕ :=
  ⌊(q : ℚ) * ((avail : ℚ) / (total : ℚ))⌋.toNat

/-- Rebalance one resource key of one zone: scaled only when the
proposed total exceeds the available quantity, key presence kept. -/
def scaleField (o : Option ℕ) (avail total : ℕ) : Option ℕ :=
  if avail < total then o.map (fun q => scaleQty q avail total) else o

/-- Rebalance every resource key of one zone against the precomputed
per-kind totals. -/
def validateZone (totals : ResourceKind → ℕ) (res : ResourcePool)
    (a : ZoneAlloc) : ZoneAlloc :=
  { a with
    food_packages :=
      scaleField a.food_packages res.food_packages (totals ResourceKind.food_packages)
    water_liters :=
      scaleField a.water_liters res.water_liters (totals ResourceKind.water_liters)
    medical_kits :=
      scaleField a.medical_kits res.medical_kits (totals ResourceKind.medical_kits)
    shelter_materials :=
      scaleField a.shelter_materials res.shelter_materials (totals ResourceKind.shelter_materials)
    blankets :=
      scaleField a.blankets res.blankets (totals ResourceKind.blankets)
    hygiene_kits :=
      scaleField a.hygiene_kits res.hygiene_kits (totals ResourceKind.hygiene_kits) }

/-- `ResourceAllocationAgent._validate_allocations`: sum each kind over
all zones, then scale down every over-allocated kind independently by
`available / total`, truncating each zone's quantity to an integer. -/
def validateAllocations (allocs : List ZoneAlloc) (res : ResourcePool) :
    List ZoneAlloc :=
  allocs.map (validateZone (allocTotal allocs) res)

/-- A prioritized zone as consumed by `_create_fallback_allocation`
(only these fields of the assessment dict are read there; `zone_name`
is read with `.get`, hence optional). -/
structure PrioritizedZone where
  zone_id : String
  zone_name : Option String
  priority_score : ℚ
deriving DecidableEq

/-- `sum(range(1, n + 1))`: the n-th triangular number as the Python
expression computes it. -/
def triangularSum (n : ℕ) : ℕ := (List.range' 1 n).sum

/-- `int(avail * ((n - i) / sum(range(1, n + 1))) * 0.9)`: the fallback
share of zone `i` out of `n` for a pool quantity `avail`. -/
def fallbackQty (avail n i : ℕ) : ℕ :=
  ⌊(avail : ℚ) * (((n : ℚ) - (i : ℚ)) / (triangularSum n : ℚ)) * (9/10)⌋.toNat

/-- One zone's fallback allocation dict (rank `i` out of `n` zones).
Only the four kinds written by `_create_fallback_allocation` are
present; `blankets` and `hygiene_kits` keys are never created. -/
def mkFallbackAlloc (res : ResourcePool) (n i : ℕ) (z : PrioritizedZone) :
    ZoneAlloc :=
  { zone_id := z.zone_id
    zone_name := z.zone_name.getD "Unknown"
    priority_score := z.priority_score
    food_packages := some (fallbackQty res.food_packages n i)
    water_liters := some (fallbackQty res.water_liters n i)
    medical_kits := some (fallbackQty res.medical_kits n i)
    shelter_materials := some (fallbackQty res.shelter_materials n i)
    blankets := none
    hygiene_kits := none
    justification :=
      "Proportional allocation based on priority rank " ++ toString (i + 1) }

/-- The `for i, zone in enumerate(zones)` loop of the fallback
allocation, carrying the running index. -/
def fallbackAllocGo (res : ResourcePool) (n : ℕ) :
    ℕ → List PrioritizedZone → List ZoneAlloc
  | _, [] => []
  | i, z :: rest => mkFallbackAlloc res n i z :: fallbackAllocGo res n (i + 1) rest

/-- `ResourceAllocationAgent._create_fallback_allocation`. -/
def createFallbackAllocation (zones : List PrioritizedZone)
    (res : ResourcePool) : List ZoneAlloc :=
  fallbackAllocGo res zones.length 0 zones

/-- Quantity a fallback allocation holds for each kind (zero for the
two kinds whose keys the fallback never writes). -/
def fallbackKindQty (res : ResourcePool) (n i : ℕ) : ResourceKind → ℕ
  | .food_packages => fallbackQty res.food_packages n i
  | .water_liters => fallbackQty res.water_liters n i
  | .medical_kits => fallbackQty res.medical_kits n i
  | .shelter_materials => fallbackQty res.shelter_materials n i
  | .blankets => 0
  | .hygiene_kits => 0

/-- The challenge vocabulary of `_simulate_delivery_execution`. -/
inductive Challenge
  | none
  | weather_delay
  | road_conditions
  | security_concern
  | vehicle_breakdown
deriving DecidableEq

/-- The challenge-adjusted success rate of one simulated delivery,
given the uniformly drawn base success fraction. -/
def successRate (base : ℚ) : Challenge → ℚ
  | .weather_delay => base * (95/100)
  | .road_conditions => base * (85/100)
  | .security_concern => base * (80/100)
  | .vehicle_breakdown => base * (75/100)
  | .none => base

/-- The `planned_delivery` sub-dict of an outcome: every key of the
allocation except the four metadata keys. -/
structure PlannedDelivery where
  food_packages : Option ℕ
  water_liters : Option ℕ
  medical_kits : Option ℕ
  shelter_materials : Option ℕ
  blankets : Option ℕ
  hygiene_kits : Option ℕ
deriving DecidableEq

/-- One simulated delivery outcome dict. -/
structure DeliveryOutcome where
  zone_id : String
  zone_name : String
  planned_delivery : PlannedDelivery
  delivered_percentage : ℚ
  challenges : Challenge
  delivery_status : String
deriving DecidableEq

/-- `HumanitarianAIOrchestrator._simulate_delivery_execution`, one zone:
a function of the two random draws of that zone (the uniform base
success fraction and the chosen challenge). -/
def simulateDeliveryOutcome (alloc : ZoneAlloc) (base : ℚ)
    (c : Challenge) : DeliveryOutcome :=
  let sr := successRate base c
  { zone_id := alloc.zone_id
    zone_name := alloc.zone_name
    planned_delivery :=
      { food_packages := alloc.food_packages
        water_liters := alloc.water_liters
        medical_kits := alloc.medical_kits
        shelter_materials := alloc.shelter_materials
        blankets := alloc.blankets
        hygiene_kits := alloc.hygiene_kits }
    delivered_percentage := pyRound1 (sr * 100)
    challenges := c
    delivery_status :=
      if 95/100 ≤ sr then "complete"
      else if 75/100 ≤ sr then "partial"
      else "incomplete" }

/-- The whole simulation loop, one draw pair per zone. -/
def simulateDeliveryExecution (allocs : List ZoneAlloc)
    (draws : List (ℚ × Challenge)) : List DeliveryOutcome :=
  (allocs.zip draws).map (fun p => simulateDeliveryOutcome p.1 p.2.1 p.2.2)

/-- The `resource_reallocation_needed` sub-dict of the fallback
analysis (its `resources_needed` dict is always empty there). -/
structure ReallocationNeed where
  zones : List String
  reason : String
deriving DecidableEq

/-- The fallback outcome-analysis dict. -/
structure FallbackAnalysis where
  overall_success_rate : ℚ
  zones_fully_served : List String
  zones_partially_served : List String
  zones_requiring_followup : List String
  critical_gaps : List String
  challenges_identified : List String
  performance_insights : String
  recommendations_next_cycle : List String
  priority_adjustments : String
  resource_reallocation_needed : ReallocationNeed
deriving DecidableEq

/-- `MonitorAdaptationAgent._create_fallback_analysis`.  With an empty
outcome list the Python `sum(...) / len(actual_outcomes)` raises
`ZeroDivisionError`, modelled as the error branch. -/
def createFallbackAnalysis (outcomes : List DeliveryOutcome) :
    Except String FallbackAnalysis :=
  let fully_served :=
    (outcomes.filter (fun o => decide (95 ≤ o.delivered_percentage))).map
      (fun o => o.zone_id)
  let part_served :=
    (outcomes.filter (fun o =>
      decide (75 ≤ o.delivered_percentage ∧ o.delivered_percentage < 95))).map
      (fun o => o.zone_id)
  let followup_needed :=
    (outcomes.filter (fun o => decide (o.delivered_percentage < 75))).map
      (fun o => o.zone_id)
  if outcomes.length = 0 then
    Except.error "ZeroDivisionError: division by zero"
  else
    let avg_delivery :=
      (outcomes.map (fun o => o.delivered_percentage)).sum / (outcomes.length : ℚ)
    Except.ok
      { overall_success_rate := pyRound1 avg_delivery
        zones_fully_served := fully_served
        zones_partially_served := part_served
        zones_requiring_followup := followup_needed
        critical_gaps := []
        challenges_identified := []
        performance_insights := "Fallback analysis generated"
        recommendations_next_cycle :=
          ["Review delivery constraints", "Improve route planning"]
        priority_adjustments := "Increase focus on under-served zones"
        resource_reallocation_needed :=
          { zones := followup_needed, reason := "Follow-up delivery required" } }

/-- Projection onto the overall success rate of a successful fallback
analysis. -/
def okOverall : Except String FallbackAnalysis → Option ℚ
  | .ok a => some a.overall_success_rate
  | .error _ => none

/-- The non-sentinel trend-analysis dict of
`track_historical_performance`. -/
structure TrendAnalysis where
  current_success_rate : ℚ
  average_previous_rate : ℚ
  improvement_percentage : ℚ
  trend : String
  total_cycles_completed : ℕ
  best_performing_cycle : ℚ
deriving DecidableEq

/-- Result of `track_historical_performance`: either the sentinel dict
returned for an empty prior-cycle list, or a full trend analysis.
A cycle record enters this function only through its
`overall_success_rate` field, so cycles are modelled by that rate. -/
inductive TrendResult
  | firstCycle (message : String)
  | analysis (t : TrendAnalysis)
deriving DecidableEq

/-- The trend string carried by either result shape (the sentinel dict
has `trend = first_cycle`). -/
def TrendResult.trend : TrendResult → String
  | .firstCycle _ => "first_cycle"
  | .analysis t => t.trend

/-- Python `max` over a list of rates (only applied to non-empty
lists). -/
def pyMax : List ℚ → ℚ
  | [] => 0
  | x :: xs => xs.foldl max x

/-- `MonitorAdaptationAgent.track_historical_performance`. -/
def trackHistoricalPerformance (current : ℚ) (previous : List ℚ) :
    TrendResult :=
  if previous = [] then
    .firstCycle "No historical data available yet"
  else
    let avg_previous := previous.sum / (previous.length : ℚ)
    let improvement := current - avg_previous
    .analysis
      { current_success_rate := current
        average_previous_rate := pyRound1 avg_previous
        improvement_percentage := pyRound1 improvement
        trend :=
          if 5 < improvement then "improving"
          else if improvement < -5 then "declining"
          else "stable"
        total_cycles_completed := previous.length + 1
        best_performing_cycle := pyMax (previous ++ [current]) }

/-- The zone-logistics record handed to the fallback route planner. -/
structure ZoneLogistics where
  zone_id : String
  zone_name : String
  distance_from_depot : ℚ
  road_condition : String
  accessibility : String
  security_level : String
  population : ℕ
deriving DecidableEq

/-- One route dict of the fallback delivery plan. -/
structure Route where
  route_id : ℕ
  vehicle_number : ℕ
  zones_sequence : List String
  total_distance_km : ℚ
  estimated_time_hours : ℚ
  delivery_notes : String
deriving DecidableEq

/-- `next((zl[distance_from_depot] for zl in zone_logistics if
zl[zone_id] == zid), 10)`. -/
def zoneDistance (lg : List ZoneLogistics) (zid : String) : ℚ :=
  match lg.find? (fun zl => zl.zone_id == zid) with
  | some zl => zl.distance_from_depot
  | Option.none => 10

/-- Build one fallback route from a group of at most three
allocations. -/
def mkRoute (lg : List ZoneLogistics) (rid : ℕ) (group : List ZoneAlloc) :
    Route :=
  let zone_ids := group.map (fun z => z.zone_id)
  let total_distance := (zone_ids.map (zoneDistance lg)).sum
  { route_id := rid
    vehicle_number := rid
    zones_sequence := zone_ids
    total_distance_km := pyRound1 total_distance
    estimated_time_hours := pyRound1 (total_distance / 30 + 2)
    delivery_notes := "Standard delivery route" }

/-- The `for i in range(0, len(allocations), 3)` slicing loop: greedy
consecutive groups of three, in order. -/
def buildRoutes (lg : List ZoneLogistics) : ℕ → List ZoneAlloc → List Route
  | _, [] => []
  | rid, a :: rest =>
      mkRoute lg rid (a :: rest.take 2) :: buildRoutes lg (rid + 1) (rest.drop 2)
termination_by _rid allocs => allocs.length
decreasing_by simp [List.length_drop]; omega

/-- The fallback delivery-plan dict. -/
structure DeliveryPlan where
  routes : List Route
  total_vehicles_needed : ℕ
  total_delivery_time_hours : ℚ
  estimated_completion : String
  logistics_summary : String
  potential_challenges : List String
deriving DecidableEq

/-- `LogisticsCoordinatorAgent._create_fallback_route_plan`. -/
def fallbackRoutePlan (allocs : List ZoneAlloc)
    (lg : List ZoneLogistics) : DeliveryPlan :=
  let routes := buildRoutes lg 1 allocs
  { routes := routes
    total_vehicles_needed := routes.length
    total_delivery_time_hours := (routes.map (fun r => r.estimated_time_hours)).sum
    estimated_completion := "Day 1-2"
    logistics_summary := "Fallback routing plan"
    potential_challenges := ["Weather dependent", "Road conditions"] }

/-- One per-zone schedule entry.  Times are the fractional-hour clock
values the Python code formats into `HH:MM` strings. -/
structure ZoneSchedule where
  sequence : ℕ
  zone_id : String
  arrival_time : ℚ
  unloading_duration_minutes : ℕ
  departure_time : ℚ
deriving DecidableEq

/-- One per-route schedule entry. -/
structure RouteSchedule where
  route_id : ℕ
  start_time : ℚ
  zones : List ZoneSchedule
  end_time : ℚ
deriving DecidableEq

/-- The `HH:MM` formatting of a (non-negative) fractional-hour clock
value: truncated hour and truncated minute within the hour. -/
def formatTime (t : ℚ) : ℤ × ℤ := (⌊t⌋, ⌊(t - ⌊t⌋) * 60⌋)

/-- The inner zone loop of `generate_delivery_schedule`: each
successive zone arrives one hour after the previous one and departs
half an hour after arriving. -/
def scheduleZones (seq : ℕ) (t : ℚ) : List String → List ZoneSchedule
  | [] => []
  | zid :: rest =>
      { sequence := seq
        zone_id := zid
        arrival_time := t
        unloading_duration_minutes := 30
        departure_time := t + 1/2 } :: scheduleZones (seq + 1) (t + 1) rest

/-- The outer route loop of `generate_delivery_schedule`: after a
route, the clock advances by the route's elapsed time plus a half-hour
buffer. -/
def scheduleRoutes (t : ℚ) : List Route → List RouteSchedule
  | [] => []
  | r :: rest =>
      { route_id := r.route_id
        start_time := t
        zones := scheduleZones 1 t r.zones_sequence
        end_time := t + (r.zones_sequence.length : ℚ) }
      :: scheduleRoutes (t + (r.zones_sequence.length : ℚ) + 1/2) rest

/-- `LogisticsCoordinatorAgent.generate_delivery_schedule`: the first
route starts at the 08:00 clock value. -/
def generateDeliverySchedule (plan : DeliveryPlan) : List RouteSchedule :=
  scheduleRoutes 8 plan.routes

/- Concrete fixtures used by witness theorems. -/

/-- A sample resource pool, food quantity mirroring the concrete
validator scenario of the specification. -/
def samplePool : ResourcePool :=
  { food_packages := 1000
    water_liters := 2000
    medical_kits := 100
    shelter_materials := 50
    blankets := 300
    hygiene_kits := 150
    vehicles_available := 5
    personnel_available := 20
    budget_usd := 50000 }

/-- Sample proposed allocation for zone Z01. -/
def sampleAlloc1 : ZoneAlloc :=
  { zone_id := "Z01"
    zone_name := "Sector A"
    priority_score := 85
    food_packages := some 700
    water_liters := some 900
    medical_kits := Option.none
    shelter_materials := some 10
    blankets := Option.none
    hygiene_kits := Option.none
    justification := "test allocation one" }

/-- Sample proposed allocation for zone Z02. -/
def sampleAlloc2 : ZoneAlloc :=
  { zone_id := "Z02"
    zone_name := "Sector B"
    priority_score := 70
    food_packages := some 700
    water_liters := some 800
    medical_kits := some 30
    shelter_materials := Option.none
    blankets := Option.none
    hygiene_kits := Option.none
    justification := "test allocation two" }

/-- Sample allocation that is within the pool for every kind. -/
def sampleAllocSmall : ZoneAlloc :=
  { zone_id := "Z03"
    zone_name := "Sector C"
    priority_score := 60
    food_packages := some 100
    water_liters := some 200
    medical_kits := some 5
    shelter_materials := Option.none
    blankets := some 20
    hygiene_kits := Option.none
    justification := "test allocation three" }

/-- Sample prioritized zone. -/
def sampleZone1 : PrioritizedZone :=
  { zone_id := "Z01", zone_name := some "Sector A", priority_score := 85 }

/-- Second sample prioritized zone (no name key). -/
def sampleZone2 : PrioritizedZone :=
  { zone_id := "Z02", zone_name := Option.none, priority_score := 70 }

/-- Sample zone-logistics records. -/
def sampleLogistics : List ZoneLogistics :=
  [{ zone_id := "Z01", zone_name := "Sector A", distance_from_depot := 10
     road_condition := "good", accessibility := "easy"
     security_level := "safe", population := 1200 },
   { zone_id := "Z02", zone_name := "Sector B", distance_from_depot := 20
     road_condition := "fair", accessibility := "moderate"
     security_level := "caution", population := 900 }]

/-- An outcome fixture carrying only the fields the analyzer reads. -/
def sampleOutcome (zid : String) (pct : ℚ) : DeliveryOutcome :=
  { zone_id := zid
    zone_name := "Sector X"
    planned_delivery :=
      { food_packages := Option.none, water_liters := Option.none
        medical_kits := Option.none, shelter_materials := Option.none
        blankets := Option.none, hygiene_kits := Option.none }
    delivered_percentage := pct
    challenges := Challenge.none
    delivery_status := "complete" }

/-- A sample route with two zones. -/
def sampleRoute : Route :=
  { route_id := 1
    vehicle_number := 1
    zones_sequence := ["Z01", "Z02"]
    total_distance_km := 30
    estimated_time_hours := 3
    delivery_notes := "Standard delivery route" }

/-- A sample delivery plan holding the sample route. -/
def samplePlan : DeliveryPlan :=
  { routes := [sampleRoute]
    total_vehicles_needed := 1
    total_delivery_time_hours := 3
    estimated_completion := "Day 1-2"
    logistics_summary := "Fallback routing plan"
    potential_challenges := ["Weather dependent", "Road conditions"] }

/-- The schedule the generator produces for the sample plan. -/
def sampleRouteSchedule : RouteSchedule :=
  { route_id := 1
    start_time := 8
    zones :=
      [{ sequence := 1, zone_id := "Z01", arrival_time := 8
         unloading_duration_minutes := 30, departure_time := 17/2 },
       { sequence := 2, zone_id := "Z02", arrival_time := 9
         unloading_duration_minutes := 30, departure_time := 19/2 }]
    end_time := 10 }

/-- A default allocation record (used only as a `headD` default). -/
def emptyZoneAlloc : ZoneAlloc :=
  { zone_id := "", zone_name := "", priority_score := 0
    food_packages := Option.none, water_liters := Option.none
    medical_kits := Option.none, shelter_materials := Option.none
    blankets := Option.none, hygiene_kits := Option.none
    justification := "" }

/-- A default route record (used only as a `headD` default). -/
def emptyRoute : Route :=
  { route_id := 0, vehicle_number := 0, zones_sequence := []
    total_distance_km := 0, estimated_time_hours := 0, delivery_notes := "" }

/- Rounding lemmas. -/

lemma floor_le_roundHalfEven (q : ℚ) : ⌊q⌋ ≤ roundHalfEven q := by
  unfold roundHalfEven; split_ifs <;> omega

lemma roundHalfEven_le_floor_add_one (q : ℚ) : roundHalfEven q ≤ ⌊q⌋ + 1 := by
  unfold roundHalfEven; split_ifs <;> omega

lemma roundHalfEven_le_of_le {m : ℤ} {q : ℚ} (h : q ≤ (m : ℚ)) :
    roundHalfEven q ≤ m := by
  have hfm : ⌊q⌋ ≤ m := by
    have h2 := Int.floor_mono h
    simpa using h2
  rcases lt_or_eq_of_le hfm with hlt | heq
  · exact le_trans (roundHalfEven_le_floor_add_one q) (by omega)
  · have hq : q = (m : ℚ) := le_antisymm h (by rw [← heq]; exact Int.floor_le q)
    rw [hq]
    unfold roundHalfEven
    norm_num

lemma le_roundHalfEven_of_half_le {m : ℤ} {q : ℚ} (hm : m % 2 = 0)
    (h : (m : ℚ) - 1/2 ≤ q) : m ≤ roundHalfEven q := by
  have h1 : (m - 1 : ℤ) ≤ ⌊q⌋ := Int.le_floor.mpr (by push_cast; linarith)
  rcases lt_or_eq_of_le h1 with hlt | heq
  · exact le_trans (by omega) (floor_le_roundHalfEven q)
  · have hfl : ⌊q⌋ = m - 1 := heq.symm
    have hfrac : 1/2 ≤ q - (⌊q⌋ : ℚ) := by
      rw [hfl]; push_cast; linarith
    unfold roundHalfEven
    split_ifs with h2 h3 h4
    · linarith
    · omega
    · omega
    · omega

/- Allocation validator lemmas. -/

lemma validateZone_qty (totals : ResourceKind → ℕ) (res : ResourcePool)
    (a : ZoneAlloc) (k : ResourceKind) :
    (validateZone totals res a).qty k
      = scaleField (a.qty k) (res.qty k) (totals k) := by
  cases k <;> rfl

lemma scaleQty_cast_le (q avail total : ℕ) :
    ((scaleQty q avail total : ℕ) : ℚ)
      ≤ (q : ℚ) * ((avail : ℚ) / (total : ℚ)) := by
  unfold scaleQty
  set x : ℚ := (q : ℚ) * ((avail : ℚ) / (total : ℚ)) with hxdef
  have hx : (0 : ℚ) ≤ x := by rw [hxdef]; positivity
  have h0 : (0 : ℤ) ≤ ⌊x⌋ := Int.floor_nonneg.mpr hx
  calc ((⌊x⌋.toNat : ℕ) : ℚ) = ((⌊x⌋.toNat : ℤ) : ℚ) := by norm_cast
    _ = ((⌊x⌋ : ℤ) : ℚ) := by rw [Int.toNat_of_nonneg h0]
    _ ≤ x := Int.floor_le x

lemma sum_scaleQty_le (qs : List ℕ) (avail : ℕ) (h : avail < qs.sum) :
    (qs.map (fun q => scaleQty q avail qs.sum)).sum ≤ avail := by
  have hne : (qs.sum : ℚ) ≠ 0 := by
    have h2 : qs.sum ≠ 0 := by omega
    exact_mod_cast h2
  have hS : (qs.map (fun q : ℕ => (q : ℚ))).sum = (qs.sum : ℚ) := by
    norm_cast
  have key : (((qs.map (fun q => scaleQty q avail qs.sum)).sum : ℕ) : ℚ)
      ≤ (avail : ℚ) := by
    rw [Nat.cast_list_sum, List.map_map]
    refine le_trans
      (List.sum_le_sum (fun q _ => scaleQty_cast_le q avail qs.sum)) ?_
    rw [List.sum_map_mul_right qs (fun q : ℕ => (q : ℚ))
      ((avail : ℚ) / (qs.sum : ℚ)), hS, mul_comm,
      div_mul_cancel₀ (avail : ℚ) hne]
  exact_mod_cast key

lemma validate_map_getD (allocs : List ZoneAlloc) (res : ResourcePool)
    (k : ResourceKind) :
    (validateAllocations allocs res).map (fun a => (ZoneAlloc.qty a k).getD 0)
      = if res.qty k < allocTotal allocs k
        then (allocs.map (fun a => (ZoneAlloc.qty a k).getD 0)).map
          (fun q => scaleQty q (res.qty k) (allocTotal allocs k))
        else allocs.map (fun a => (ZoneAlloc.qty a k).getD 0) := by
  unfold validateAllocations
  rw [List.map_map]
  split_ifs with h
  · rw [List.map_map]
    apply List.map_congr_left
    intro a _
    simp only [Function.comp_apply, validateZone_qty, scaleField, if_pos h]
    cases a.qty k <;> simp [scaleQty, Int.floor_zero]
  · apply List.map_congr_left
    intro a _
    simp only [Function.comp_apply, validateZone_qty, scaleField, if_neg h]

lemma validate_total_le (allocs : List ZoneAlloc) (res : ResourcePool)
    (k : ResourceKind) :
    allocTotal (validateAllocations allocs res) k ≤ res.qty k := by
  show ((validateAllocations allocs res).map
    (fun a => (ZoneAlloc.qty a k).getD 0)).sum ≤ res.qty k
  rw [validate_map_getD]
  split_ifs with h
  · exact sum_scaleQty_le (allocs.map (fun a => (ZoneAlloc.qty a k).getD 0))
      (res.qty k) h
  · exact not_lt.mp h

lemma validate_map_qty_of_lt (allocs : List ZoneAlloc) (res : ResourcePool)
    (k : ResourceKind) (h : res.qty k < allocTotal allocs k) :
    (validateAllocations allocs res).map (fun a => ZoneAlloc.qty a k)
      = allocs.map (fun a => (ZoneAlloc.qty a k).map
          (fun q => scaleQty q (res.qty k) (allocTotal allocs k))) := by
  unfold validateAllocations
  rw [List.map_map]
  apply List.map_congr_left
  intro a _
  simp only [Function.comp_apply, validateZone_qty, scaleField, if_pos h]

lemma validate_map_qty_of_le (allocs : List ZoneAlloc) (res : ResourcePool)
    (k : ResourceKind) (h : allocTotal allocs k ≤ res.qty k) :
    (validateAllocations allocs res).map (fun a => ZoneAlloc.qty a k)
      = allocs.map (fun a => ZoneAlloc.qty a k) := by
  unfold validateAllocations
  rw [List.map_map]
  apply List.map_congr_left
  intro a _
  simp only [Function.comp_apply, validateZone_qty, scaleField,
    if_neg (not_lt.mpr h)]

lemma validate_of_le (allocs : List ZoneAlloc) (res : ResourcePool)
    (h : ∀ k, allocTotal allocs k ≤ res.qty k) :
    validateAllocations allocs res = allocs := by
  unfold validateAllocations
  have hz : ∀ a ∈ allocs, validateZone (allocTotal allocs) res a = a := by
    intro a _
    have h1 : ¬ (res.food_packages < allocTotal allocs ResourceKind.food_packages) :=
      not_lt.mpr (h ResourceKind.food_packages)
    have h2 : ¬ (res.water_liters < allocTotal allocs ResourceKind.water_liters) :=
      not_lt.mpr (h ResourceKind.water_liters)
    have h3 : ¬ (res.medical_kits < allocTotal allocs ResourceKind.medical_kits) :=
      not_lt.mpr (h ResourceKind.medical_kits)
    have h4 : ¬ (res.shelter_materials < allocTotal allocs ResourceKind.shelter_materials) :=
      not_lt.mpr (h ResourceKind.shelter_materials)
    have h5 : ¬ (res.blankets < allocTotal allocs ResourceKind.blankets) :=
      not_lt.mpr (h ResourceKind.blankets)
    have h6 : ¬ (res.hygiene_kits < allocTotal allocs ResourceKind.hygiene_kits) :=
      not_lt.mpr (h ResourceKind.hygiene_kits)
    cases a
    simp only [validateZone, scaleField, if_neg h1, if_neg h2, if_neg h3,
      if_neg h4, if_neg h5, if_neg h6]
  calc allocs.map (validateZone (allocTotal allocs) res)
      = allocs.map id := List.map_congr_left hz
    _ = allocs := List.map_id allocs

lemma validate_idem (allocs : List ZoneAlloc) (res : ResourcePool) :
    validateAllocations (validateAllocations allocs res) res
      = validateAllocations allocs res :=
  validate_of_le _ _ (fun k => validate_total_le allocs res k)

/-- C1: after `_validate_allocations`, every resource kind's summed
quantity is at most the pool quantity; a kind whose proposed sum
exceeds the pool has every zone quantity replaced by the original
quantity times `pool / sum`, rounded down; a kind at or under capacity
keeps every zone quantity unchanged. -/
theorem C1_validator_conservation (allocs : List ZoneAlloc)
    (res : ResourcePool) (k : ResourceKind) :
    allocTotal (validateAllocations allocs res) k ≤ res.qty k
    ∧ (res.qty k < allocTotal allocs k →
        (validateAllocations allocs res).map (fun a => ZoneAlloc.qty a k)
          = allocs.map (fun a => (ZoneAlloc.qty a k).map
              (fun q => scaleQty q (res.qty k) (allocTotal allocs k))))
    ∧ (allocTotal allocs k ≤ res.qty k →
        (validateAllocations allocs res).map (fun a => ZoneAlloc.qty a k)
          = allocs.map (fun a => ZoneAlloc.qty a k)) :=
  ⟨validate_total_le allocs res k,
   fun h => validate_map_qty_of_lt allocs res k h,
   fun h => validate_map_qty_of_le allocs res k h⟩

/-- Witness for C1 at the specification's concrete scenario: pool food
1000, two zones proposing 700 each are both scaled to 500. -/
theorem C1_validator_conservation_witness :
    samplePool.qty ResourceKind.food_packages
        < allocTotal [sampleAlloc1, sampleAlloc2] ResourceKind.food_packages
    ∧ (validateAllocations [sampleAlloc1, sampleAlloc2] samplePool).map
          (fun a => ZoneAlloc.qty a ResourceKind.food_packages)
        = [sampleAlloc1, sampleAlloc2].map
            (fun a => (ZoneAlloc.qty a ResourceKind.food_packages).map
              (fun q => scaleQty q
                (samplePool.qty ResourceKind.food_packages)
                (allocTotal [sampleAlloc1, sampleAlloc2]
                  ResourceKind.food_packages))) :=
  ⟨by decide,
   (C1_validator_conservation [sampleAlloc1, sampleAlloc2] samplePool
      ResourceKind.food_packages).2.1 (by decide)⟩

/-- C3: the validator is idempotent — an allocation list already
satisfying the conservation invariant is returned unchanged, and
validating twice equals validating once. -/
theorem C3_validator_idempotent (allocs : List ZoneAlloc)
    (res : ResourcePool) :
    ((∀ k, allocTotal allocs k ≤ res.qty k) →
        validateAllocations allocs res = allocs)
    ∧ validateAllocations (validateAllocations allocs res) res
        = validateAllocations allocs res :=
  ⟨fun h => validate_of_le allocs res h, validate_idem allocs res⟩

/-- Witness for C3: a single in-budget allocation is left untouched
and revalidation is a no-op. -/
theorem C3_validator_idempotent_witness :
    (∀ k, allocTotal [sampleAllocSmall] k ≤ samplePool.qty k)
    ∧ validateAllocations [sampleAllocSmall] samplePool = [sampleAllocSmall] :=
  ⟨by decide, (C3_validator_idempotent [sampleAllocSmall] samplePool).1 (by decide)⟩

unseal Rat.add Rat.mul Rat.inv Rat.sub in
/-- C2 fails as stated: with base success draw 0.94996 and no
challenge, the rounded `delivered_percentage` reaches 95.0 while the
status — computed from the unrounded success rate 0.94996 < 0.95 — is
`partial`, not `complete`.  The draw lies inside the simulator's
[0.85, 1] base range. -/
theorem C2_counterexample_threshold_rounding :
    (85/100 : ℚ) ≤ 23749/25000 ∧ (23749/25000 : ℚ) ≤ 1
    ∧ 95 ≤ (simulateDeliveryOutcome sampleAlloc1 (23749/25000)
        Challenge.none).delivered_percentage
    ∧ (simulateDeliveryOutcome sampleAlloc1 (23749/25000)
        Challenge.none).delivery_status ≠ "complete" := by
  refine ⟨by norm_num, by norm_num, ?_, ?_⟩ <;> decide

/-- C2 amended: the delivery status is determined by the unrounded
challenge-adjusted success rate — `complete` iff it is at least 0.95,
`partial` iff it is in [0.75, 0.95), `incomplete` iff it is below
0.75.  The same equivalences phrased with the rounded
`delivered_percentage` fail only where rounding crosses a threshold. -/
theorem C2_status_matches_unrounded_rate (alloc : ZoneAlloc) (base : ℚ)
    (c : Challenge) :
    ((simulateDeliveryOutcome alloc base c).delivery_status = "complete"
        ↔ 95/100 ≤ successRate base c)
    ∧ ((simulateDeliveryOutcome alloc base c).delivery_status = "partial"
        ↔ 75/100 ≤ successRate base c ∧ successRate base c < 95/100)
    ∧ ((simulateDeliveryOutcome alloc base c).delivery_status = "incomplete"
        ↔ successRate base c < 75/100) := by
  simp only [simulateDeliveryOutcome]
  split_ifs with h1 h2
  · refine ⟨iff_of_true rfl h1, iff_of_false (by decide) ?_,
      iff_of_false (by decide) ?_⟩
    · rintro ⟨-, hlt⟩; linarith
    · intro hlt; linarith
  · refine ⟨iff_of_false (by decide) h1,
      iff_of_true rfl ⟨h2, not_le.mp h1⟩,
      iff_of_false (by decide) ?_⟩
    intro hlt; linarith
  · refine ⟨iff_of_false (by decide) ?_,
      iff_of_false (by decide) ?_,
      iff_of_true rfl (not_le.mp h2)⟩
    · intro hge; exact h1 (le_trans (by norm_num) hge)
    · rintro ⟨hge, -⟩; exact h2 hge

lemma successRate_le {base : ℚ} (hb : 0 ≤ base) (c : Challenge) :
    successRate base c ≤ base := by
  cases c <;> simp only [successRate] <;> nlinarith

lemma successRate_ge {base : ℚ} (hb : 0 ≤ base) (c : Challenge) :
    3/4 * base ≤ successRate base c := by
  cases c <;> simp only [successRate] <;> nlinarith

/-- C9: every simulated outcome has a delivered percentage between
63.75 and 100 — the base draw lies in [0.85, 1] and the challenge
multiplier lies in [0.75, 1], so the [0, 100] range of the data model
is never left. -/
theorem C9_delivered_percentage_bounds (alloc : ZoneAlloc) (base : ℚ)
    (c : Challenge) (h1 : 85/100 ≤ base) (h2 : base ≤ 1) :
    (1275/20 : ℚ)
        ≤ (simulateDeliveryOutcome alloc base c).delivered_percentage
    ∧ (simulateDeliveryOutcome alloc base c).delivered_percentage ≤ 100
    ∧ 3/4 * base ≤ successRate base c
    ∧ successRate base c ≤ base := by
  have hb0 : (0 : ℚ) ≤ base := by linarith
  have hgeS : 3/4 * base ≤ successRate base c := successRate_ge hb0 c
  have hleS : successRate base c ≤ base := successRate_le hb0 c
  have hlo : (51/80 : ℚ) ≤ successRate base c := by linarith
  have hhi : successRate base c ≤ 1 := le_trans hleS h2
  have hdp : (simulateDeliveryOutcome alloc base c).delivered_percentage
      = pyRound1 (successRate base c * 100) := rfl
  refine ⟨?_, ?_, hgeS, hleS⟩
  · rw [hdp]
    unfold pyRound1
    have h638 : (638 : ℤ)
        ≤ roundHalfEven (successRate base c * 100 * 10) := by
      apply le_roundHalfEven_of_half_le (by norm_num)
      push_cast
      linarith
    calc (1275/20 : ℚ) ≤ (638 : ℚ) / 10 := by norm_num
      _ ≤ (roundHalfEven (successRate base c * 100 * 10) : ℚ) / 10 :=
          (div_le_div_iff_of_pos_right (by norm_num)).mpr (by exact_mod_cast h638)
  · rw [hdp]
    unfold pyRound1
    have h1000 : roundHalfEven (successRate base c * 100 * 10)
        ≤ (1000 : ℤ) := by
      apply roundHalfEven_le_of_le
      push_cast
      linarith
    calc (roundHalfEven (successRate base c * 100 * 10) : ℚ) / 10
        ≤ (1000 : ℚ) / 10 :=
          (div_le_div_iff_of_pos_right (by norm_num)).mpr (by exact_mod_cast h1000)
      _ = 100 := by norm_num

unseal Rat.add Rat.mul Rat.inv Rat.sub in
/-- Witness for C9 at base draw 0.9 with no challenge. -/
theorem C9_delivered_percentage_bounds_witness :
    (85/100 : ℚ) ≤ 9/10 ∧ (9/10 : ℚ) ≤ 1
    ∧ ((1275/20 : ℚ) ≤ (simulateDeliveryOutcome sampleAlloc1 (9/10)
          Challenge.none).delivered_percentage
        ∧ (simulateDeliveryOutcome sampleAlloc1 (9/10)
            Challenge.none).delivered_percentage ≤ 100
        ∧ (3/4 : ℚ) * (9/10) ≤ successRate (9/10) Challenge.none
        ∧ successRate (9/10) Challenge.none ≤ 9/10) :=
  ⟨by decide, by decide,
   C9_delivered_percentage_bounds sampleAlloc1 (9/10) Challenge.none
     (by decide) (by decide)⟩

lemma track_trend_nonempty (current : ℚ) (previous : List ℚ)
    (h : previous ≠ []) :
    (trackHistoricalPerformance current previous).trend
      = (if 5 < current - previous.sum / (previous.length : ℚ)
          then "improving"
          else if current - previous.sum / (previous.length : ℚ) < -5
            then "declining"
            else "stable") := by
  unfold trackHistoricalPerformance
  rw [if_neg h]
  rfl

/-- C5: with no prior cycles the tracker returns the `first_cycle`
sentinel independently of the current cycle (the sentinel branch is
taken before any arithmetic); with prior cycles the trend is
`improving` iff `current − mean(previous) > 5`, `declining` iff it is
below −5, and `stable` otherwise. -/
theorem C5_trend_classification (current : ℚ) (previous : List ℚ) :
    (trackHistoricalPerformance current []).trend = "first_cycle"
    ∧ trackHistoricalPerformance current []
        = TrendResult.firstCycle "No historical data available yet"
    ∧ (previous ≠ [] →
        ((trackHistoricalPerformance current previous).trend = "improving"
            ↔ 5 < current - previous.sum / (previous.length : ℚ))
        ∧ ((trackHistoricalPerformance current previous).trend = "declining"
            ↔ current - previous.sum / (previous.length : ℚ) < -5)
        ∧ ((trackHistoricalPerformance current previous).trend = "stable"
            ↔ -5 ≤ current - previous.sum / (previous.length : ℚ)
              ∧ current - previous.sum / (previous.length : ℚ) ≤ 5)) := by
  refine ⟨rfl, rfl, fun h => ?_⟩
  rw [track_trend_nonempty current previous h]
  split_ifs with g1 g2
  · exact ⟨iff_of_true rfl g1,
      iff_of_false (by decide) (fun hc => by linarith),
      iff_of_false (by decide) (fun hc => by
        rcases hc with ⟨-, h5⟩; linarith)⟩
  · exact ⟨iff_of_false (by decide) g1,
      iff_of_true rfl g2,
      iff_of_false (by decide) (fun hc => by
        rcases hc with ⟨ha, -⟩; linarith)⟩
  · exact ⟨iff_of_false (by decide) g1,
      iff_of_false (by decide) g2,
      iff_of_true rfl ⟨le_of_not_lt g2, le_of_not_lt g1⟩⟩

/-- Witness for C5: one prior cycle at 80 and a current rate of 90
give improvement 10, an improving trend. -/
theorem C5_trend_classification_witness :
    ((trackHistoricalPerformance 90 [80]).trend = "improving"
        ↔ 5 < (90 : ℚ) - List.sum [(80 : ℚ)] / ((List.length [(80 : ℚ)]) : ℚ))
    ∧ ((trackHistoricalPerformance 90 [80]).trend = "declining"
        ↔ (90 : ℚ) - List.sum [(80 : ℚ)] / ((List.length [(80 : ℚ)]) : ℚ) < -5)
    ∧ ((trackHistoricalPerformance 90 [80]).trend = "stable"
        ↔ -5 ≤ (90 : ℚ) - List.sum [(80 : ℚ)] / ((List.length [(80 : ℚ)]) : ℚ)
          ∧ (90 : ℚ) - List.sum [(80 : ℚ)] / ((List.length [(80 : ℚ)]) : ℚ) ≤ 5) :=
  (C5_trend_classification 90 [80]).2.2 (by decide)

unseal Rat.add Rat.mul Rat.inv Rat.sub in
/-- C6 fails as stated on the exact mean: the stored overall success
rate is the mean rounded to one decimal, so outcomes 98, 85, 65 yield
82.7 rather than the exact mean 248/3. -/
theorem C6_counterexample_mean_rounded :
    okOverall (createFallbackAnalysis
        [sampleOutcome "Z01" 98, sampleOutcome "Z02" 85, sampleOutcome "Z03" 65])
      = some (827/10)
    ∧ ((827/10 : ℚ) ≠ ((98 : ℚ) + 85 + 65) / 3) := by
  exact ⟨by decide, by decide⟩

/-- C6 amended: the fallback analyzer stores the arithmetic mean of
delivered percentages rounded to one decimal place, and on an empty
outcome list it fails with a division-by-zero error, never returning a
result. -/
theorem C6_fallback_mean_and_empty_error (outcomes : List DeliveryOutcome) :
    createFallbackAnalysis []
        = Except.error "ZeroDivisionError: division by zero"
    ∧ (outcomes ≠ [] →
        okOverall (createFallbackAnalysis outcomes)
          = some (pyRound1
              ((outcomes.map (fun o => o.delivered_percentage)).sum
                / (outcomes.length : ℚ)))) := by
  refine ⟨rfl, fun h => ?_⟩
  unfold createFallbackAnalysis
  rw [if_neg (fun hh => h (List.length_eq_zero.mp hh))]
  rfl

/-- Witness for C6 on three concrete outcomes. -/
theorem C6_fallback_mean_and_empty_error_witness :
    okOverall (createFallbackAnalysis
        [sampleOutcome "Z01" 98, sampleOutcome "Z02" 85, sampleOutcome "Z03" 65])
      = some (pyRound1
          ((([sampleOutcome "Z01" 98, sampleOutcome "Z02" 85,
              sampleOutcome "Z03" 65]).map
            (fun o => o.delivered_percentage)).sum
            / ((List.length [sampleOutcome "Z01" 98, sampleOutcome "Z02" 85,
                sampleOutcome "Z03" 65]) : ℚ))) :=
  (C6_fallback_mean_and_empty_error
    [sampleOutcome "Z01" 98, sampleOutcome "Z02" 85, sampleOutcome "Z03" 65]).2
    (by decide)

/- Schedule-generator lemmas. -/

lemma scheduleZones_length (seq : ℕ) (t : ℚ) (ids : List String) :
    (scheduleZones seq t ids).length = ids.length := by
  induction ids generalizing seq t with
  | nil => rfl
  | cons z rest ih => simp [scheduleZones, ih]

lemma scheduleZones_get (ids : List String) (seq : ℕ) (t : ℚ) (i : ℕ)
    (h : i < (scheduleZones seq t ids).length) :
    (scheduleZones seq t ids).get ⟨i, h⟩
      = { sequence := seq + i
          zone_id := ids.get ⟨i, by
            rw [← scheduleZones_length seq t ids]; exact h⟩
          arrival_time := t + i
          unloading_duration_minutes := 30
          departure_time := t + i + 1/2 } := by
  induction ids generalizing seq t i with
  | nil => simp [scheduleZones] at h
  | cons z rest ih =>
    cases i with
    | zero => simp [scheduleZones]
    | succ j =>
      have hj : j < (scheduleZones (seq + 1) (t + 1) rest).length := by
        have := h
        simp only [scheduleZones, List.length_cons] at this
        omega
      simp only [scheduleZones, List.get_cons_succ]
      rw [ih (seq + 1) (t + 1) j hj]
      simp only [ZoneSchedule.mk.injEq, List.get_cons_succ]
      and_intros <;> first
        | rfl
        | trivial
        | omega
        | (push_cast; ring)

lemma mem_scheduleRoutes (routes : List Route) (t : ℚ) (rs : RouteSchedule)
    (hrs : rs ∈ scheduleRoutes t routes) :
    ∃ t0 ids, rs.zones = scheduleZones 1 t0 ids := by
  induction routes generalizing t with
  | nil => simp [scheduleRoutes] at hrs
  | cons r rest ih =>
    rcases List.mem_cons.mp hrs with h | h
    · exact ⟨t, r.zones_sequence, by rw [h]⟩
    · exact ih _ h

/-- C7: in every generated schedule, within one route, zone `i + 1`
arrives exactly one hour after zone `i` arrived, every departure is
its own arrival plus half an hour, and hence each zone's departure is
at or before the next zone's arrival. -/
theorem C7_schedule_monotonicity (plan : DeliveryPlan) (rs : RouteSchedule)
    (hrs : rs ∈ generateDeliverySchedule plan) (i : ℕ)
    (h : i + 1 < rs.zones.length) :
    (rs.zones.get ⟨i, Nat.lt_of_succ_lt h⟩).departure_time
        ≤ (rs.zones.get ⟨i + 1, h⟩).arrival_time
    ∧ (rs.zones.get ⟨i + 1, h⟩).arrival_time
        = (rs.zones.get ⟨i, Nat.lt_of_succ_lt h⟩).arrival_time + 1
    ∧ (rs.zones.get ⟨i, Nat.lt_of_succ_lt h⟩).departure_time
        = (rs.zones.get ⟨i, Nat.lt_of_succ_lt h⟩).arrival_time + 1/2 := by
  obtain ⟨t0, ids, hz⟩ := mem_scheduleRoutes plan.routes 8 rs hrs
  rcases rs with ⟨rid, st, zones, et⟩
  simp only at hz h ⊢
  subst hz
  rw [scheduleZones_get ids 1 t0 i (Nat.lt_of_succ_lt h),
    scheduleZones_get ids 1 t0 (i + 1) h]
  refine ⟨?_, ?_, rfl⟩
  · push_cast
    linarith
  · push_cast
    ring

unseal Rat.add Rat.mul Rat.inv Rat.sub in
/-- Witness for C7 on the sample two-zone route starting at 08:00. -/
theorem C7_schedule_monotonicity_witness :
    (sampleRouteSchedule.zones.get ⟨0, by decide⟩).departure_time
        ≤ (sampleRouteSchedule.zones.get ⟨1, by decide⟩).arrival_time
    ∧ (sampleRouteSchedule.zones.get ⟨1, by decide⟩).arrival_time
        = (sampleRouteSchedule.zones.get ⟨0, by decide⟩).arrival_time + 1
    ∧ (sampleRouteSchedule.zones.get ⟨0, by decide⟩).departure_time
        = (sampleRouteSchedule.zones.get ⟨0, by decide⟩).arrival_time + 1/2 :=
  C7_schedule_monotonicity samplePlan sampleRouteSchedule (by decide) 0
    (by decide)

/- Fallback route-planner lemmas. -/

lemma buildRoutes_join (lg : List ZoneLogistics) :
    ∀ (rid : ℕ) (allocs : List ZoneAlloc),
      ((buildRoutes lg rid allocs).map (fun r => r.zones_sequence)).flatten
        = allocs.map (fun a => a.zone_id)
  | _, [] => by simp [buildRoutes]
  | rid, a :: rest => by
      rw [buildRoutes]
      simp only [List.map_cons, List.flatten_cons]
      rw [buildRoutes_join lg (rid + 1) (rest.drop 2)]
      show ((a :: rest.take 2).map (fun z => z.zone_id))
          ++ (rest.drop 2).map (fun z => z.zone_id)
        = (a :: rest).map (fun a => a.zone_id)
      rw [← List.map_append]
      simp [List.take_append_drop]
termination_by _ allocs => allocs.length
decreasing_by simp [List.length_drop]; omega

lemma buildRoutes_group_size (lg : List ZoneLogistics) :
    ∀ (rid : ℕ) (allocs : List ZoneAlloc),
      ∀ r ∈ buildRoutes lg rid allocs,
        1 ≤ r.zones_sequence.length ∧ r.zones_sequence.length ≤ 3
  | _, [] => by simp [buildRoutes]
  | rid, a :: rest => by
      rw [buildRoutes]
      intro r hr
      rcases List.mem_cons.mp hr with h | h
      · subst h
        show 1 ≤ ((a :: rest.take 2).map (fun z => z.zone_id)).length
          ∧ ((a :: rest.take 2).map (fun z => z.zone_id)).length ≤ 3
        simp [List.length_take]
      · exact buildRoutes_group_size lg (rid + 1) (rest.drop 2) r h
termination_by _ allocs => allocs.length
decreasing_by simp [List.length_drop]; omega

lemma buildRoutes_eq_nil (lg : List ZoneLogistics) (rid : ℕ)
    (allocs : List ZoneAlloc) :
    buildRoutes lg rid allocs = [] ↔ allocs = [] := by
  cases allocs with
  | nil => simp [buildRoutes]
  | cons a rest => rw [buildRoutes]; simp

lemma buildRoutes_full_groups (lg : List ZoneLogistics) :
    ∀ (rid : ℕ) (allocs : List ZoneAlloc) (i : ℕ),
      i + 1 < (buildRoutes lg rid allocs).length →
      ((buildRoutes lg rid allocs).getD i emptyRoute).zones_sequence.length = 3
  | _, [], i => by simp [buildRoutes]
  | rid, a :: rest, 0 => by
      intro h
      have hcons : buildRoutes lg rid (a :: rest)
          = mkRoute lg rid (a :: rest.take 2)
            :: buildRoutes lg (rid + 1) (rest.drop 2) := by
        rw [buildRoutes]
      rw [hcons] at h ⊢
      have hlen : 0 < (buildRoutes lg (rid + 1) (rest.drop 2)).length := by
        simpa using h
      have hdrop : rest.drop 2 ≠ [] := by
        intro hd
        have hb : buildRoutes lg (rid + 1) (rest.drop 2) = [] :=
          (buildRoutes_eq_nil lg (rid + 1) (rest.drop 2)).mpr hd
        rw [hb] at hlen
        simp at hlen
      have hrest : 2 ≤ rest.length := by
        by_contra hc
        exact hdrop (List.drop_eq_nil_iff.mpr (by omega))
      simp only [List.getD_cons_zero]
      show ((a :: rest.take 2).map (fun z => z.zone_id)).length = 3
      simp only [List.length_map, List.length_cons, List.length_take]
      omega
  | rid, a :: rest, Nat.succ i => by
      intro h
      have hcons : buildRoutes lg rid (a :: rest)
          = mkRoute lg rid (a :: rest.take 2)
            :: buildRoutes lg (rid + 1) (rest.drop 2) := by
        rw [buildRoutes]
      rw [hcons] at h ⊢
      have h2 : i + 1 < (buildRoutes lg (rid + 1) (rest.drop 2)).length := by
        simpa using h
      have hrec := buildRoutes_full_groups lg (rid + 1) (rest.drop 2) i h2
      simpa only [List.getD_cons_succ] using hrec
termination_by _ allocs _ => allocs.length
decreasing_by simp [List.length_drop]; omega

lemma buildRoutes_head (lg : List ZoneLogistics) (rid : ℕ)
    (allocs : List ZoneAlloc) (h : allocs ≠ []) :
    ((buildRoutes lg rid allocs).headD emptyRoute).zones_sequence
      = (allocs.map (fun a => a.zone_id)).take 3 := by
  cases allocs with
  | nil => exact absurd rfl h
  | cons a rest =>
    rw [buildRoutes]
    simp only [List.headD_cons]
    show (a :: rest.take 2).map (fun z => z.zone_id)
      = ((a :: rest).map (fun a => a.zone_id)).take 3
    simp [List.map_take]

/-- C8: the fallback route planner partitions the allocation list into
consecutive groups: the concatenation of all routes' zone sequences is
exactly the input zone-id order (so rank order is preserved within and
across routes), every route has between 1 and 3 zones, every route but
possibly the last has exactly 3, and the first route holds the first
three zone ids. -/
theorem C8_fallback_route_partition (allocs : List ZoneAlloc)
    (lg : List ZoneLogistics) :
    (((fallbackRoutePlan allocs lg).routes.map
        (fun r => r.zones_sequence)).flatten
      = allocs.map (fun a => a.zone_id))
    ∧ (∀ r ∈ (fallbackRoutePlan allocs lg).routes,
        1 ≤ r.zones_sequence.length ∧ r.zones_sequence.length ≤ 3)
    ∧ (∀ i, i + 1 < (fallbackRoutePlan allocs lg).routes.length →
        ((fallbackRoutePlan allocs lg).routes.getD i
            emptyRoute).zones_sequence.length = 3)
    ∧ (allocs ≠ [] →
        ((fallbackRoutePlan allocs lg).routes.headD
            emptyRoute).zones_sequence
          = (allocs.map (fun a => a.zone_id)).take 3) :=
  ⟨buildRoutes_join lg 1 allocs,
   buildRoutes_group_size lg 1 allocs,
   buildRoutes_full_groups lg 1 allocs,
   buildRoutes_head lg 1 allocs⟩

/-- Witness for C8 on two allocations: a single route carrying both
zone ids in order. -/
theorem C8_fallback_route_partition_witness :
    (((fallbackRoutePlan [sampleAlloc1, sampleAlloc2]
          sampleLogistics).routes.map
        (fun r => r.zones_sequence)).flatten
      = [sampleAlloc1, sampleAlloc2].map (fun a => a.zone_id))
    ∧ (((fallbackRoutePlan [sampleAlloc1, sampleAlloc2]
            sampleLogistics).routes.headD emptyRoute).zones_sequence
        = ([sampleAlloc1, sampleAlloc2].map (fun a => a.zone_id)).take 3) :=
  ⟨(C8_fallback_route_partition [sampleAlloc1, sampleAlloc2]
      sampleLogistics).1,
   (C8_fallback_route_partition [sampleAlloc1, sampleAlloc2]
      sampleLogistics).2.2.2 (by decide)⟩

/- Fallback-allocation lemmas. -/

lemma floor_toNat_cast_le {x : ℚ} (hx : 0 ≤ x) :
    ((⌊x⌋.toNat : ℕ) : ℚ) ≤ x := by
  have h0 : (0 : ℤ) ≤ ⌊x⌋ := Int.floor_nonneg.mpr hx
  calc ((⌊x⌋.toNat : ℕ) : ℚ) = ((⌊x⌋.toNat : ℤ) : ℚ) := by norm_cast
    _ = ((⌊x⌋ : ℤ) : ℚ) := by rw [Int.toNat_of_nonneg h0]
    _ ≤ x := Int.floor_le x

lemma fallbackAllocGo_map_proj {α : Type} (res : ResourcePool) (n : ℕ)
    (g : ZoneAlloc → α) (v : ℕ → α)
    (hg : ∀ j z, g (mkFallbackAlloc res n j z) = v j) :
    ∀ (i : ℕ) (zs : List PrioritizedZone),
      (fallbackAllocGo res n i zs).map g = (List.range' i zs.length).map v := by
  intro i zs
  induction zs generalizing i with
  | nil => rfl
  | cons z rest ih =>
    simp only [fallbackAllocGo, List.map_cons, List.length_cons,
      List.range'_succ, hg, ih (i + 1)]

lemma fallback_total (zones : List PrioritizedZone) (res : ResourcePool)
    (k : ResourceKind) :
    allocTotal (createFallbackAllocation zones res) k
      = ((List.range' 0 zones.length).map
          (fun j => fallbackKindQty res zones.length j k)).sum := by
  unfold allocTotal createFallbackAllocation
  rw [fallbackAllocGo_map_proj res zones.length
    (fun a => (ZoneAlloc.qty a k).getD 0)
    (fun j => fallbackKindQty res zones.length j k)
    (fun j z => by cases k <;> rfl) 0 zones]

lemma sum_sub_eq_triangular (N : ℕ) :
    ((List.range' 0 N).map (fun j => N - j)).sum = triangularSum N := by
  rw [← List.range_eq_range']
  calc ((List.range N).map (fun j => N - j)).sum
      = ((List.range' 1 N).reverse).sum := by
        rw [List.reverse_range']
        exact congrArg List.sum
          (List.map_congr_left (fun j hj => by omega))
    _ = (List.range' 1 N).sum := List.sum_reverse _
    _ = triangularSum N := rfl

lemma sum_range'_sub_cast (N : ℕ) :
    ((List.range' 0 N).map (fun (j : ℕ) => ((N : ℚ) - (j : ℚ)))).sum
      = (triangularSum N : ℚ) := by
  have h1 : (List.range' 0 N).map (fun (j : ℕ) => ((N : ℚ) - (j : ℚ)))
      = (List.range' 0 N).map (fun (j : ℕ) => ((N - j : ℕ) : ℚ)) := by
    apply List.map_congr_left
    intro j hj
    have hjN : j < N := by
      have h2 := List.mem_range'_1.mp hj
      omega
    rw [Nat.cast_sub (le_of_lt hjN)]
  have h2 : (List.range' 0 N).map (fun (j : ℕ) => ((N - j : ℕ) : ℚ))
      = ((List.range' 0 N).map (fun j => N - j)).map
          (fun m : ℕ => (m : ℚ)) := by rw [List.map_map]; rfl
  rw [h1, h2, ← Nat.cast_list_sum, sum_sub_eq_triangular]

lemma triangularSum_pos {N : ℕ} (hN : 1 ≤ N) : 1 ≤ triangularSum N := by
  cases N with
  | zero => omega
  | succ m =>
    unfold triangularSum
    rw [List.range'_succ]
    simp only [List.sum_cons]
    omega

lemma fallback_sum_le (p N : ℕ) (hN : 1 ≤ N) :
    (((List.range' 0 N).map (fun j => fallbackQty p N j)).sum : ℚ)
      ≤ (9/10) * (p : ℚ) := by
  have hT : (0 : ℚ) < (triangularSum N : ℚ) := by
    exact_mod_cast Nat.lt_of_lt_of_le Nat.zero_lt_one (triangularSum_pos hN)
  have step1 : (((List.range' 0 N).map (fun j => fallbackQty p N j)).sum : ℚ)
      ≤ ((List.range' 0 N).map (fun (j : ℕ) =>
          (p : ℚ) * (((N : ℚ) - (j : ℚ)) / (triangularSum N : ℚ))
            * (9/10))).sum := by
    rw [Nat.cast_list_sum, List.map_map]
    apply List.sum_le_sum
    intro j hj
    have hjN : j < N := by
      have h2 := List.mem_range'_1.mp hj
      omega
    have hnn : (0 : ℚ)
        ≤ (p : ℚ) * (((N : ℚ) - (j : ℚ)) / (triangularSum N : ℚ)) * (9/10) := by
      have hs : (0 : ℚ) ≤ (N : ℚ) - (j : ℚ) := by
        have : (j : ℚ) ≤ (N : ℚ) := by exact_mod_cast le_of_lt hjN
        linarith
      have hdiv : (0 : ℚ) ≤ ((N : ℚ) - (j : ℚ)) / (triangularSum N : ℚ) :=
        div_nonneg hs (le_of_lt hT)
      have := mul_nonneg (mul_nonneg (Nat.cast_nonneg p) hdiv)
        (by norm_num : (0 : ℚ) ≤ 9/10)
      exact this
    exact floor_toNat_cast_le hnn
  refine le_trans step1 ?_
  have hc : ∀ j ∈ List.range' 0 N,
      (p : ℚ) * (((N : ℚ) - (j : ℚ)) / (triangularSum N : ℚ)) * (9/10)
        = ((N : ℚ) - (j : ℚ))
            * ((p : ℚ) / (triangularSum N : ℚ) * (9/10)) :=
    fun j _ => by ring
  rw [List.map_congr_left hc,
    List.sum_map_mul_right (List.range' 0 N)
      (fun (j : ℕ) => ((N : ℚ) - (j : ℚ)))
      ((p : ℚ) / (triangularSum N : ℚ) * (9/10)),
    sum_range'_sub_cast]
  have hTne : (triangularSum N : ℚ) ≠ 0 := ne_of_gt hT
  have hfin : (triangularSum N : ℚ)
      * ((p : ℚ) / (triangularSum N : ℚ) * (9/10)) = 9/10 * (p : ℚ) := by
    field_simp
    ring
  rw [hfin]

lemma mem_fallbackAllocGo (res : ResourcePool) (n : ℕ) :
    ∀ (i : ℕ) (zs : List PrioritizedZone),
      ∀ a ∈ fallbackAllocGo res n i zs,
        ∃ j z, a = mkFallbackAlloc res n j z := by
  intro i zs
  induction zs generalizing i with
  | nil => simp [fallbackAllocGo]
  | cons z rest ih =>
    intro a ha
    rcases List.mem_cons.mp ha with h | h
    · exact ⟨i, z, h⟩
    · exact ih (i + 1) a h

lemma fallbackQty_mono (p N j : ℕ) (hN : 1 ≤ N) :
    fallbackQty p N j ≤ fallbackQty p N 0 := by
  have hT : (0 : ℚ) < (triangularSum N : ℚ) := by
    exact_mod_cast Nat.lt_of_lt_of_le Nat.zero_lt_one (triangularSum_pos hN)
  unfold fallbackQty
  apply Int.toNat_le_toNat
  apply Int.floor_mono
  have h1 : ((N : ℚ) - (j : ℚ)) ≤ ((N : ℚ) - ((0 : ℕ) : ℚ)) := by
    have hj : (0 : ℚ) ≤ (j : ℚ) := Nat.cast_nonneg j
    push_cast
    linarith
  have h2 : ((N : ℚ) - (j : ℚ)) / (triangularSum N : ℚ)
      ≤ ((N : ℚ) - ((0 : ℕ) : ℚ)) / (triangularSum N : ℚ) :=
    (div_le_div_iff_of_pos_right hT).mpr h1
  have h3 := mul_le_mul_of_nonneg_left h2 (Nat.cast_nonneg p)
  have h4 := mul_le_mul_of_nonneg_right h3 (by norm_num : (0 : ℚ) ≤ 9/10)
  calc (p : ℚ) * (((N : ℚ) - (j : ℚ)) / (triangularSum N : ℚ)) * (9/10)
      ≤ (p : ℚ) * (((N : ℚ) - ((0 : ℕ) : ℚ)) / (triangularSum N : ℚ))
          * (9/10) := h4

/-- C4: for a non-empty ranked zone list, the fallback allocation gives
zone `i` exactly `int(pool · (N − i)/(1 + ⋯ + N) · 0.9)` of each of the
four written kinds, the per-kind totals never exceed 90% of the pool,
and the top-ranked zone's quantity is the largest for every kind. -/
theorem C4_fallback_allocation_shares (zones : List PrioritizedZone)
    (res : ResourcePool) (hz : zones ≠ []) :
    (∀ k, (allocTotal (createFallbackAllocation zones res) k : ℚ)
        ≤ (9/10) * (res.qty k : ℚ))
    ∧ ((createFallbackAllocation zones res).map (fun a => a.food_packages)
        = (List.range' 0 zones.length).map
            (fun i => some (fallbackQty res.food_packages zones.length i)))
    ∧ ((createFallbackAllocation zones res).map (fun a => a.water_liters)
        = (List.range' 0 zones.length).map
            (fun i => some (fallbackQty res.water_liters zones.length i)))
    ∧ ((createFallbackAllocation zones res).map (fun a => a.medical_kits)
        = (List.range' 0 zones.length).map
            (fun i => some (fallbackQty res.medical_kits zones.length i)))
    ∧ ((createFallbackAllocation zones res).map
          (fun a => a.shelter_materials)
        = (List.range' 0 zones.length).map
            (fun i => some (fallbackQty res.shelter_materials zones.length i)))
    ∧ (∀ a ∈ createFallbackAllocation zones res, ∀ k,
        (ZoneAlloc.qty a k).getD 0
          ≤ (ZoneAlloc.qty ((createFallbackAllocation zones res).headD
              emptyZoneAlloc) k).getD 0) := by
  have hN : 1 ≤ zones.length := List.length_pos.mpr hz
  refine ⟨?_, ?_, ?_, ?_, ?_, ?_⟩
  · intro k
    rw [fallback_total]
    cases k with
    | food_packages => exact fallback_sum_le res.food_packages zones.length hN
    | water_liters => exact fallback_sum_le res.water_liters zones.length hN
    | medical_kits => exact fallback_sum_le res.medical_kits zones.length hN
    | shelter_materials =>
        exact fallback_sum_le res.shelter_materials zones.length hN
    | blankets => simp [fallbackKindQty, ResourcePool.qty]
    | hygiene_kits => simp [fallbackKindQty, ResourcePool.qty]
  · exact fallbackAllocGo_map_proj res zones.length
      (fun a => a.food_packages)
      (fun i => some (fallbackQty res.food_packages zones.length i))
      (fun j z => rfl) 0 zones
  · exact fallbackAllocGo_map_proj res zones.length
      (fun a => a.water_liters)
      (fun i => some (fallbackQty res.water_liters zones.length i))
      (fun j z => rfl) 0 zones
  · exact fallbackAllocGo_map_proj res zones.length
      (fun a => a.medical_kits)
      (fun i => some (fallbackQty res.medical_kits zones.length i))
      (fun j z => rfl) 0 zones
  · exact fallbackAllocGo_map_proj res zones.length
      (fun a => a.shelter_materials)
      (fun i => some (fallbackQty res.shelter_materials zones.length i))
      (fun j z => rfl) 0 zones
  · intro a ha k
    cases zones with
    | nil => exact absurd rfl hz
    | cons z0 rest =>
      have hhead : (createFallbackAllocation (z0 :: rest) res).headD
          emptyZoneAlloc
          = mkFallbackAlloc res (z0 :: rest).length 0 z0 := rfl
      obtain ⟨j, z, rfl⟩ :=
        mem_fallbackAllocGo res (z0 :: rest).length 0 (z0 :: rest) a ha
      rw [hhead]
      have e1 : ∀ (m : ℕ) (w : PrioritizedZone),
          (ZoneAlloc.qty (mkFallbackAlloc res (z0 :: rest).length m w) k).getD 0
            = fallbackKindQty res (z0 :: rest).length m k :=
        fun m w => by cases k <;> rfl
      rw [e1, e1]
      cases k with
      | food_packages => exact fallbackQty_mono _ _ j (by simp)
      | water_liters => exact fallbackQty_mono _ _ j (by simp)
      | medical_kits => exact fallbackQty_mono _ _ j (by simp)
      | shelter_materials => exact fallbackQty_mono _ _ j (by simp)
      | blankets => exact le_refl 0
      | hygiene_kits => exact le_refl 0

unseal Rat.add Rat.mul Rat.inv Rat.sub in
/-- Witness for C4 on two ranked zones against the sample pool. -/
theorem C4_fallback_allocation_shares_witness :
    (∀ k, (allocTotal (createFallbackAllocation [sampleZone1, sampleZone2]
          samplePool) k : ℚ)
        ≤ (9/10) * (samplePool.qty k : ℚ))
    ∧ ((createFallbackAllocation [sampleZone1, sampleZone2] samplePool).map
          (fun a => a.food_packages)
        = (List.range' 0 (List.length [sampleZone1, sampleZone2])).map
            (fun i => some (fallbackQty samplePool.food_packages
              (List.length [sampleZone1, sampleZone2]) i))) :=
  ⟨(C4_fallback_allocation_shares [sampleZone1, sampleZone2] samplePool
      (by decide)).1,
   (C4_fallback_allocation_shares [sampleZone1, sampleZone2] samplePool
      (by decide)).2.1⟩

/-- C10: no fallback allocation ever carries a `blankets` or
`hygiene_kits` key, whatever the zones and the pool hold. -/
theorem C10_fallback_writes_four_kinds (zones : List PrioritizedZone)
    (res : ResourcePool) :
    ∀ a ∈ createFallbackAllocation zones res,
      a.blankets = Option.none ∧ a.hygiene_kits = Option.none := by
  intro a ha
  obtain ⟨j, z, rfl⟩ :=
    mem_fallbackAllocGo res zones.length 0 zones a ha
  exact ⟨rfl, rfl⟩

unseal Rat.add Rat.mul Rat.inv Rat.sub in
/-- Witness for C10 at the head of a concrete fallback allocation over
a pool that does hold blankets and hygiene kits. -/
theorem C10_fallback_writes_four_kinds_witness :
    ((createFallbackAllocation [sampleZone1, sampleZone2]
        samplePool).headD emptyZoneAlloc).blankets = Option.none
    ∧ ((createFallbackAllocation [sampleZone1, sampleZone2]
        samplePool).headD emptyZoneAlloc).hygiene_kits = Option.none :=
  C10_fallback_writes_four_kinds [sampleZone1, sampleZone2] samplePool
    ((createFallbackAllocation [sampleZone1, sampleZone2]
        samplePool).headD emptyZoneAlloc)
    (by decide)

end HumAid
